import Mathlib

/-!
Shallow embedding of `scripts/generate_stats.py` (GitHub Stats SVG
Generator).  Network I/O is abstracted into an `Env` record holding the
outcome (`Except`) of each remote call; everything else is translated
directly from the Python source.  Machine integers are modelled as `ℕ`;
the score, which Python computes as a float because of the `* 0.5`
commit term, is modelled as `ℚ` (all intermediate values are exact
multiples of 1/2 far below 2^53, so `ℚ` coincides with the float
semantics of the source).
-/

/-- Constant `API_TIMEOUT = 30` from the source (transport-level only). -/
def API_TIMEOUT : ℕ := 30

/-- Constant `MAX_REPOS_FOR_COMMITS = 10` from the source. -/
def MAX_REPOS_FOR_COMMITS : ℕ := 10

/-- The statistics dictionary returned by `get_user_stats`, fields in the
order of the Python dict literal. -/
structure Stats where
  username : String
  name : String
  avatar_base64 : String
  repos : ℕ
  followers : ℕ
  following : ℕ
  stars : ℕ
  prs : ℕ
  issues : ℕ
  commits : ℕ
  deriving Repr, DecidableEq

/-- The fields of the GitHub user-profile response that the source reads
(`name`, `avatar_url`, `public_repos`, `followers`, `following`).
`none` models an absent / JSON-null field. -/
structure UserData where
  name : Option String
  avatar_url : Option String
  public_repos : ℕ
  followers : ℕ
  following : ℕ
  deriving Repr, DecidableEq

/-- One element of the repository-listing response; the source reads
`repo["name"]` and `repo.get("stargazers_count", 0)`. -/
structure Repo where
  name : String
  stargazers_count : ℕ
  deriving Repr, DecidableEq

/-- A search-API response; the source reads only `total_count`. -/
structure SearchData where
  total_count : ℕ
  deriving Repr, DecidableEq

/-- A per-repository commits response: the `Link` header
(`response.headers.get("Link", "")`, default `""`) and the number of
items in the JSON body. -/
structure CommitResp where
  linkHeader : String
  items : ℕ
  deriving Repr, DecidableEq

/-- Python's `a or b` on two optional strings: `None` and `""` are falsy. -/
def pyOrOpt (a b : Option String) : Option String :=
  match a with
  | some s => if s = "" then b else some s
  | none => b

/-- Python's `a or b` where `b` is a plain string
(`user_data.get("name") or username`). -/
def pyOrStr (a : Option String) (b : String) : String :=
  match a with
  | some s => if s = "" then b else s
  | none => b

/-- `pat.isPrefixOf l || ...` scan: Boolean substring containment on
character lists, modelling Python's `pat in s`. -/
def hasInfix (pat : List Char) : List Char → Bool
  | [] => pat.isEmpty
  | c :: rest => pat.isPrefixOf (c :: rest) || hasInfix pat rest

/-- `'rel="last"' in link_header` from the source. -/
def containsRelLast (s : String) : Bool :=
  hasInfix ("rel=\"last\"".toList) s.toList

/-- Numeric value of a digit list (`int(match.group(1))`). -/
def digitsToNat (ds : List Char) : ℕ :=
  ds.foldl (fun a c => a * 10 + (c.toNat - '0'.toNat)) 0

/-- Strip a literal from the front of a character list, returning the
remainder on success. -/
def stripLit : List Char → List Char → Option (List Char)
  | [], l => some l
  | _ :: _, [] => none
  | p :: ps, c :: cs => if p = c then stripLit ps cs else none

/-- Attempt to match the regex `page=(\d+)>; rel="last"` anchored at the
head of the list.  Since the character after `(\d+)` in the pattern is
`>`, which is not a digit, greedy matching of a maximal digit run is
equivalent to the backtracking semantics of `re`. -/
def matchPageAt (l : List Char) : Option ℕ :=
  match stripLit ("page=".toList) l with
  | none => none
  | some rest =>
    let ds := rest.takeWhile Char.isDigit
    let rest2 := rest.dropWhile Char.isDigit
    if ds.isEmpty then none
    else
      match stripLit (">; rel=\"last\"".toList) rest2 with
      | none => none
      | some _ => some (digitsToNat ds)

/-- Leftmost match, as `re.search` does. -/
def findLastPageAux : List Char → Option ℕ
  | [] => none
  | c :: rest =>
    match matchPageAt (c :: rest) with
    | some n => some n
    | none => findLastPageAux rest

/-- `re.search(r"page=(\d+)>; rel=\"last\"", link_header)` followed by
`int(match.group(1))`, as an optional number. -/
def findLastPage (s : String) : Option ℕ :=
  findLastPageAux s.toList

/-- The body of the per-repository loop in `get_user_stats`
(lines 103-116): the whole lookup is wrapped in `try/except: pass`, so a
failed lookup contributes 0; on success, if the `Link` header contains
`rel="last"` the extracted last page number is added (nothing if the
regex fails to match), otherwise the number of items in the body. -/
def commitContribution (resp : Except String CommitResp) : ℕ :=
  match resp with
  | .error _ => 0
  | .ok r =>
    if containsRelLast r.linkHeader then
      match findLastPage r.linkHeader with
      | some n => n
      | none => 0
    else r.items

/-- The commit-estimation loop: `for repo in repos[:MAX_REPOS_FOR_COMMITS]`,
summing each sampled repository's contribution.  `lk` maps a repository
name to the outcome of its commits request. -/
def totalCommitsOf (repos : List Repo)
    (lk : String → Except String CommitResp) : ℕ :=
  ((repos.take MAX_REPOS_FOR_COMMITS).map
    (fun r => commitContribution (lk r.name))).sum

/-- `fetch_avatar_base64` (lines 44-55): any failure is swallowed and
yields `""`. -/
def fetch_avatar_base64 (resp : Except String String) : String :=
  match resp with
  | .ok s => s
  | .error _ => ""

/-- Outcomes of the remote calls issued by one run: the user profile,
the repository listing, the PR search, the issue search, the avatar
fetch (by URL) and the per-repository commits request (by repo name). -/
structure Env where
  userResp : Except String UserData
  reposResp : Except String (List Repo)
  prsResp : Except String SearchData
  issuesResp : Except String SearchData
  avatarResp : String → Except String String
  commitResp : String → Except String CommitResp

/-- `get_user_stats` (lines 58-129).  `fetch_github_data` raises on
failure, so the profile, repository-listing and both search calls
propagate errors (`←` bind); the avatar fetch and each commit lookup are
wrapped in their own `try/except` and never fail. -/
def get_user_stats (username : String) (env : Env) : Except String Stats := do
  let user_data ← env.userResp
  let repos ← env.reposResp
  let total_stars := (repos.map (fun r => r.stargazers_count)).sum
  let prs_data ← env.prsResp
  let issues_data ← env.issuesResp
  let avatar_base64 :=
    match user_data.avatar_url with
    | some url => if url = "" then "" else fetch_avatar_base64 (env.avatarResp url)
    | none => ""
  let total_commits := totalCommitsOf repos env.commitResp
  .ok
    { username := username
      name := pyOrStr user_data.name username
      avatar_base64 := avatar_base64
      repos := user_data.public_repos
      followers := user_data.followers
      following := user_data.following
      stars := total_stars
      prs := prs_data.total_count
      issues := issues_data.total_count
      commits := total_commits }

/-- Python's builtin `min` on two rationals, written out so that it
evaluates by kernel reduction. -/
def pymin (a b : ℚ) : ℚ :=
  if a ≤ b then a else b

theorem pymin_eq_min (a b : ℚ) : pymin a b = min a b :=
  (min_def a b).symm

/-- The score accumulation in `calculate_grade` (lines 154-160);
`0.5` is exact in both float and `ℚ`. -/
def score (stats : Stats) : ℚ :=
  pymin ((stats.repos : ℚ) * 2) 50
    + pymin ((stats.followers : ℚ) * 1) 50
    + pymin ((stats.stars : ℚ) * 3) 75
    + pymin ((stats.prs : ℚ) * 5) 75
    + pymin ((stats.commits : ℚ) * 0.5) 50
    + pymin ((stats.issues : ℚ) * 2) 25

/-- The grade ladder of `calculate_grade` (lines 162-177), returning the
exact string literals of the source. -/
def gradeOf (s : ℚ) : String :=
  if s ≥ 300 then "S"
  else if s ≥ 200 then "+A"
  else if s ≥ 150 then "A"
  else if s ≥ 100 then "+B"
  else if s ≥ 75 then "B"
  else if s ≥ 50 then "+C"
  else if s ≥ 25 then "C"
  else "D"

/-- `calculate_grade` (lines 132-177). -/
def calculate_grade (stats : Stats) : String :=
  gradeOf (score stats)

/-- The `grade_colors` dict lookup with default `"#FFFFFF"`
(lines 205-215). -/
def grade_colors (grade : String) : String :=
  if grade = "S" then "#FFD700"
  else if grade = "+A" then "#00FF00"
  else if grade = "A" then "#7CFC00"
  else if grade = "+B" then "#87CEEB"
  else if grade = "B" then "#ADD8E6"
  else if grade = "+C" then "#FFA500"
  else if grade = "C" then "#FF8C00"
  else if grade = "D" then "#FF6347"
  else "#FFFFFF"

/-- `generate_svg` (lines 180-276): the f-string template rendered by
string concatenation, following the source line by line. -/
def generate_svg (stats : Stats) : String :=
  let grade := calculate_grade stats
  let name := stats.name
  let username := stats.username
  let avatar_clip_def :=
    if stats.avatar_base64 ≠ "" then
      "\n    <clipPath id=\"avatarClip\">\n      <circle cx=\"50\" cy=\"50\" r=\"40\"/>\n    </clipPath>"
    else ""
  let avatar_base64 := stats.avatar_base64
  let avatar_image :=
    if avatar_base64 ≠ "" then
      "<image x=\"10\" y=\"10\" width=\"80\" height=\"80\" href=\"data:image/png;base64,"
        ++ avatar_base64 ++ "\" clip-path=\"url(#avatarClip)\"/>"
    else ""
  let grade_color := grade_colors grade
  "<svg xmlns=\"http://www.w3.org/2000/svg\" width=\"400\" height=\"200\" viewBox=\"0 0 400 200\">\n"
    ++ "  <defs>\n"
    ++ "    <linearGradient id=\"bg\" x1=\"0%\" y1=\"0%\" x2=\"100%\" y2=\"100%\">\n"
    ++ "      <stop offset=\"0%\" style=\"stop-color:#0d1117;stop-opacity:1\" />\n"
    ++ "      <stop offset=\"100%\" style=\"stop-color:#161b22;stop-opacity:1\" />\n"
    ++ "    </linearGradient>" ++ avatar_clip_def ++ "\n"
    ++ "  </defs>\n\n"
    ++ "  <!-- Background -->\n"
    ++ "  <rect width=\"400\" height=\"200\" rx=\"10\" fill=\"url(#bg)\" stroke=\"#30363d\" stroke-width=\"1\"/>\n\n"
    ++ "  <!-- Avatar -->\n"
    ++ "  <circle cx=\"50\" cy=\"50\" r=\"40\" fill=\"#21262d\"/>\n"
    ++ "  " ++ avatar_image ++ "\n\n"
    ++ "  <!-- Name and Username -->\n"
    ++ "  <text x=\"100\" y=\"40\" fill=\"#ffffff\" font-family=\"Segoe UI, Ubuntu, sans-serif\" font-size=\"18\" font-weight=\"600\">" ++ name ++ "</text>\n"
    ++ "  <text x=\"100\" y=\"60\" fill=\"#8b949e\" font-family=\"Segoe UI, Ubuntu, sans-serif\" font-size=\"12\">@" ++ username ++ "</text>\n\n"
    ++ "  <!-- Grade -->\n"
    ++ "  <circle cx=\"360\" cy=\"45\" r=\"30\" fill=\"none\" stroke=\"" ++ grade_color ++ "\" stroke-width=\"3\"/>\n"
    ++ "  <text x=\"360\" y=\"52\" fill=\"" ++ grade_color ++ "\" font-family=\"Segoe UI, Ubuntu, sans-serif\" font-size=\"20\" font-weight=\"700\" text-anchor=\"middle\">" ++ grade ++ "</text>\n\n"
    ++ "  <!-- Stats Grid -->\n"
    ++ "  <g transform=\"translate(20, 100)\">\n"
    ++ "    <!-- Row 1 -->\n"
    ++ "    <g transform=\"translate(0, 0)\">\n"
    ++ "      <text fill=\"#8b949e\" font-family=\"Segoe UI, Ubuntu, sans-serif\" font-size=\"11\">Repositories</text>\n"
    ++ "      <text y=\"18\" fill=\"#ffffff\" font-family=\"Segoe UI, Ubuntu, sans-serif\" font-size=\"16\" font-weight=\"600\">" ++ toString stats.repos ++ "</text>\n"
    ++ "    </g>\n"
    ++ "    <g transform=\"translate(90, 0)\">\n"
    ++ "      <text fill=\"#8b949e\" font-family=\"Segoe UI, Ubuntu, sans-serif\" font-size=\"11\">Followers</text>\n"
    ++ "      <text y=\"18\" fill=\"#ffffff\" font-family=\"Segoe UI, Ubuntu, sans-serif\" font-size=\"16\" font-weight=\"600\">" ++ toString stats.followers ++ "</text>\n"
    ++ "    </g>\n"
    ++ "    <g transform=\"translate(180, 0)\">\n"
    ++ "      <text fill=\"#8b949e\" font-family=\"Segoe UI, Ubuntu, sans-serif\" font-size=\"11\">Stars</text>\n"
    ++ "      <text y=\"18\" fill=\"#ffffff\" font-family=\"Segoe UI, Ubuntu, sans-serif\" font-size=\"16\" font-weight=\"600\">" ++ toString stats.stars ++ "</text>\n"
    ++ "    </g>\n"
    ++ "    <g transform=\"translate(270, 0)\">\n"
    ++ "      <text fill=\"#8b949e\" font-family=\"Segoe UI, Ubuntu, sans-serif\" font-size=\"11\">PRs</text>\n"
    ++ "      <text y=\"18\" fill=\"#ffffff\" font-family=\"Segoe UI, Ubuntu, sans-serif\" font-size=\"16\" font-weight=\"600\">" ++ toString stats.prs ++ "</text>\n"
    ++ "    </g>\n\n"
    ++ "    <!-- Row 2 -->\n"
    ++ "    <g transform=\"translate(0, 50)\">\n"
    ++ "      <text fill=\"#8b949e\" font-family=\"Segoe UI, Ubuntu, sans-serif\" font-size=\"11\">Commits</text>\n"
    ++ "      <text y=\"18\" fill=\"#ffffff\" font-family=\"Segoe UI, Ubuntu, sans-serif\" font-size=\"16\" font-weight=\"600\">" ++ toString stats.commits ++ "</text>\n"
    ++ "    </g>\n"
    ++ "    <g transform=\"translate(90, 50)\">\n"
    ++ "      <text fill=\"#8b949e\" font-family=\"Segoe UI, Ubuntu, sans-serif\" font-size=\"11\">Issues</text>\n"
    ++ "      <text y=\"18\" fill=\"#ffffff\" font-family=\"Segoe UI, Ubuntu, sans-serif\" font-size=\"16\" font-weight=\"600\">" ++ toString stats.issues ++ "</text>\n"
    ++ "    </g>\n"
    ++ "    <g transform=\"translate(180, 50)\">\n"
    ++ "      <text fill=\"#8b949e\" font-family=\"Segoe UI, Ubuntu, sans-serif\" font-size=\"11\">Following</text>\n"
    ++ "      <text y=\"18\" fill=\"#ffffff\" font-family=\"Segoe UI, Ubuntu, sans-serif\" font-size=\"16\" font-weight=\"600\">" ++ toString stats.following ++ "</text>\n"
    ++ "    </g>\n"
    ++ "  </g>\n"
    ++ "</svg>"

/-- Username resolution in `main` (lines 282-287):
`os.environ.get("GITHUB_USERNAME") or os.environ.get("GITHUB_REPOSITORY_OWNER")`,
overridden by `sys.argv[1]` when present. -/
def resolve_username (envUser envOwner : Option String)
    (argv : List String) : Option String :=
  let fromEnv := pyOrOpt envUser envOwner
  if 1 < argv.length then some (argv.getD 1 "") else fromEnv

/-- `main` (lines 279-316), modelled as the pair (exit code, written
file).  `none` in the second component means no output file was
written; `some (path, contents)` is the single write of the rendered
document.  A falsy username exits 1 before any network call; a raised
aggregation error is caught by the `try/except` and exits 1 without
writing. -/
def mainRun (envUser envOwner : Option String) (argv : List String)
    (envOutput : Option String) (env : Env) : ℕ × Option (String × String) :=
  match resolve_username envUser envOwner argv with
  | none => (1, none)
  | some username =>
    if username = "" then (1, none)
    else
      let output_path := envOutput.getD "docs/stats.svg"
      match get_user_stats username env with
      | .error _ => (1, none)
      | .ok stats => (0, some (output_path, generate_svg stats))

/-!  Specification-side definitions used to state the claims. -/

/-- Rank of a grade string in the band order of the source's ladder,
lowest band first; the plus-grades are spelled exactly as the code
returns them (`"+A"`, `"+B"`, `"+C"`). -/
def gradeRank (g : String) : ℕ :=
  if g = "S" then 7
  else if g = "+A" then 6
  else if g = "A" then 5
  else if g = "+B" then 4
  else if g = "B" then 3
  else if g = "+C" then 2
  else if g = "C" then 1
  else 0

/-- A record whose score is exactly 200
(25·2 = 50, 50·1 = 50, 25·3 = 75, 5·5 = 25). -/
def statsScore200 : Stats := ⟨"octo", "octo", "", 25, 50, 0, 25, 5, 0, 0⟩

/-- A record whose score is exactly 100 (50 + 50). -/
def statsScore100 : Stats := ⟨"octo", "octo", "", 25, 50, 0, 0, 0, 0, 0⟩

/-- A record with repoCount 100 and all other counts 0. -/
def statsRepos100 : Stats := ⟨"octo", "octo", "", 100, 0, 0, 0, 0, 0, 0⟩

/-- A record that saturates every cap. -/
def statsAllThousand : Stats :=
  ⟨"octo", "octo", "", 1000, 1000, 1000, 1000, 1000, 1000, 1000⟩

/-!  Helper lemmas about the grader. -/

theorem score_mono (s t : Stats) (h1 : s.repos ≤ t.repos)
    (h2 : s.followers ≤ t.followers) (h3 : s.stars ≤ t.stars)
    (h4 : s.prs ≤ t.prs) (h5 : s.commits ≤ t.commits)
    (h6 : s.issues ≤ t.issues) : score s ≤ score t := by
  simp only [score, pymin_eq_min]
  gcongr

theorem gradeRank_gradeOf_eq (a : ℚ) :
    gradeRank (gradeOf a) =
      if a ≥ 300 then 7 else if a ≥ 200 then 6 else if a ≥ 150 then 5
        else if a ≥ 100 then 4 else if a ≥ 75 then 3 else if a ≥ 50 then 2
        else if a ≥ 25 then 1 else 0 := by
  unfold gradeOf
  split_ifs <;> rfl

set_option maxHeartbeats 1000000 in
theorem gradeRank_gradeOf_mono {a b : ℚ} (h : a ≤ b) :
    gradeRank (gradeOf a) ≤ gradeRank (gradeOf b) := by
  rw [gradeRank_gradeOf_eq, gradeRank_gradeOf_eq]
  split_ifs <;> first | decide | linarith

theorem score_le_cap_sum (s : Stats) : score s ≤ 325 := by
  simp only [score, pymin_eq_min]
  have h1 := min_le_right ((s.repos : ℚ) * 2) 50
  have h2 := min_le_right ((s.followers : ℚ) * 1) 50
  have h3 := min_le_right ((s.stars : ℚ) * 3) 75
  have h4 := min_le_right ((s.prs : ℚ) * 5) 75
  have h5 := min_le_right ((s.commits : ℚ) * 0.5) 50
  have h6 := min_le_right ((s.issues : ℚ) * 2) 25
  linarith

/-!  The claims. -/

/-- Claim C1 (code bug): the threshold structure of `calculate_grade` is
as the claim says (inclusive lower bounds checked in descending order),
but at every plus band the code returns the reversed label: a capped
score of exactly 200 yields the string `"+A"`, not the `"A+"` announced
by the claim and by the function's own docstring.  This theorem
evaluates the code at the failing input. -/
theorem calculate_grade_mislabels_plus_bands :
    score statsScore200 = 200 ∧ calculate_grade statsScore200 = "+A"
      ∧ calculate_grade statsScore200 ≠ "A+" := by
  have hs : score statsScore200 = 200 := by
    norm_num [score, pymin, statsScore200]
  have hg : calculate_grade statsScore200 = "+A" := by
    rw [calculate_grade, hs]; norm_num [gradeOf]
  exact ⟨hs, hg, by rw [hg]; decide⟩

/-- Claim C2 (code bug): `calculate_grade` does not stay inside the
enumeration {S, A+, A, B+, B, C+, C, D} of the claim and of its own
docstring: at score 100 it returns `"+B"`, which is outside that set
(the code's actual range is {S, +A, A, +B, B, +C, C, D}).  This theorem
evaluates the code at the failing input. -/
theorem calculate_grade_outside_spec_enumeration :
    calculate_grade statsScore100 = "+B"
      ∧ calculate_grade statsScore100
          ∉ (["S", "A+", "A", "B+", "B", "C+", "C", "D"] : List String) := by
  have hs : score statsScore100 = 100 := by
    norm_num [score, pymin, statsScore100]
  have hg : calculate_grade statsScore100 = "+B" := by
    rw [calculate_grade, hs]; norm_num [gradeOf]
  exact ⟨hg, by rw [hg]; decide⟩

/-- Claim C3: the score is the sum of the six independently capped terms
`min(repos·2, 50) + min(followers·1, 50) + min(stars·3, 75) +
min(prs·5, 75) + min(commits·0.5, 50) + min(issues·2, 25)`; a repo count
of 100 contributes exactly 50 (not 200); the score never exceeds 325 and
325 is attained. -/
theorem score_is_capped_sum :
    (∀ s : Stats,
        score s = min ((s.repos : ℚ) * 2) 50 + min ((s.followers : ℚ) * 1) 50
          + min ((s.stars : ℚ) * 3) 75 + min ((s.prs : ℚ) * 5) 75
          + min ((s.commits : ℚ) * 0.5) 50 + min ((s.issues : ℚ) * 2) 25)
  ∧ (∀ s : Stats, s.repos = 100 → pymin ((s.repos : ℚ) * 2) 50 = 50)
  ∧ (∀ s : Stats, score s ≤ 325)
  ∧ score statsAllThousand = 325 := by
  refine ⟨?_, ?_, score_le_cap_sum, ?_⟩
  · intro s; simp only [score, pymin_eq_min]
  · intro s h; rw [h]; norm_num [pymin]
  · norm_num [score, pymin, statsAllThousand]

/-- Witness for C3 at concrete inputs. -/
theorem score_is_capped_sum_witness :
    pymin ((statsRepos100.repos : ℚ) * 2) 50 = 50
      ∧ score statsScore200 ≤ 325 :=
  ⟨score_is_capped_sum.2.1 statsRepos100 rfl,
   score_is_capped_sum.2.2.1 statsScore200⟩

/-- Claim C7: the grade is a function of the six scored fields only; two
records that agree on repoCount, followerCount, starCount, prCount,
commitCount and issueCount get the same grade whatever their
followingCount (or any other unscored field). -/
theorem grade_ignores_unscored_fields (s t : Stats)
    (h1 : s.repos = t.repos) (h2 : s.followers = t.followers)
    (h3 : s.stars = t.stars) (h4 : s.prs = t.prs)
    (h5 : s.commits = t.commits) (h6 : s.issues = t.issues) :
    calculate_grade s = calculate_grade t := by
  unfold calculate_grade score
  rw [h1, h2, h3, h4, h5, h6]

/-- Witness for C7: two records differing in followingCount, username,
name and avatar but agreeing on the scored fields. -/
theorem grade_ignores_unscored_fields_witness :
    calculate_grade ⟨"a", "a", "", 1, 2, 3, 4, 5, 6, 7⟩
      = calculate_grade ⟨"b", "c", "x", 1, 2, 999, 4, 5, 6, 7⟩ :=
  grade_ignores_unscored_fields _ _ rfl rfl rfl rfl rfl rfl

/-- Claim C10: the grade is monotone in the scored fields, for the band
order D < C < C+ < B < B+ < A < A+ < S (the plus bands being spelled
`"+C"`, `"+B"`, `"+A"` by the code): jointly increasing any of the six
scored counts never lowers `gradeRank`; in particular increasing one
field while the others stay fixed never yields a strictly lower
grade. -/
theorem grade_monotone_in_scored_fields (s t : Stats)
    (h1 : s.repos ≤ t.repos) (h2 : s.followers ≤ t.followers)
    (h3 : s.stars ≤ t.stars) (h4 : s.prs ≤ t.prs)
    (h5 : s.commits ≤ t.commits) (h6 : s.issues ≤ t.issues) :
    gradeRank (calculate_grade s) ≤ gradeRank (calculate_grade t) :=
  gradeRank_gradeOf_mono (score_mono s t h1 h2 h3 h4 h5 h6)

/-- Witness for C10: increasing a single field (stars 4 → 40). -/
theorem grade_monotone_in_scored_fields_witness :
    gradeRank (calculate_grade ⟨"a", "a", "", 1, 2, 3, 4, 5, 6, 7⟩)
      ≤ gradeRank (calculate_grade ⟨"a", "a", "", 1, 2, 3, 40, 5, 6, 7⟩) :=
  grade_monotone_in_scored_fields _ _ (by decide) (by decide) (by decide)
    (by decide) (by decide) (by decide)

/-- Claim C4: a sampled repository whose `Link` header carries
`rel="last"` with an extractable last page number `n` contributes `n`
commits; one without the indicator contributes the number of items in
the body; and the total is the sum of the contributions of the sampled
repositories. -/
theorem commit_estimation_policy :
    (∀ (r : CommitResp) (n : ℕ), containsRelLast r.linkHeader = true →
        findLastPage r.linkHeader = some n →
        commitContribution (.ok r) = n)
  ∧ (∀ r : CommitResp, containsRelLast r.linkHeader = false →
        commitContribution (.ok r) = r.items)
  ∧ (∀ (repos : List Repo) (lk : String → Except String CommitResp),
        totalCommitsOf repos lk
          = ((repos.take MAX_REPOS_FOR_COMMITS).map
              (fun r => commitContribution (lk r.name))).sum) := by
  refine ⟨?_, ?_, fun _ _ => rfl⟩
  · intro r n hc hf
    simp [commitContribution, hc, hf]
  · intro r hc
    simp [commitContribution, hc]

/-- Witness for C4: a realistic `Link` header whose last page is 7
contributes 7 even though the body holds 0 items; an empty header
contributes the single item of the body. -/
theorem commit_estimation_policy_witness :
    commitContribution
        (Except.ok
          ⟨"<https://api.github.com/repos/u/r/commits?author=u&per_page=1&page=7>; rel=\"last\"", 0⟩)
      = 7
  ∧ commitContribution (Except.ok ⟨"", 1⟩) = 1 :=
  ⟨commit_estimation_policy.1 _ 7 (by decide) (by decide),
   commit_estimation_policy.2.1 ⟨"", 1⟩ (by decide)⟩

/-- Claim C9: when the `rel="last"` indicator is present but the regex
`page=(\d+)>; rel="last"` fails to match, the repository contributes 0;
the item-count fallback is not taken. -/
theorem relLast_unparsable_contributes_zero (r : CommitResp)
    (hc : containsRelLast r.linkHeader = true)
    (hf : findLastPage r.linkHeader = none) :
    commitContribution (.ok r) = 0 := by
  simp [commitContribution, hc, hf]

/-- Witness for C9: a header that contains `rel="last"` but no
`page=N>; rel="last"` pattern; the 5 items of the body are ignored. -/
theorem relLast_unparsable_contributes_zero_witness :
    commitContribution (Except.ok ⟨"rel=\"last\"", 5⟩) = 0 :=
  relLast_unparsable_contributes_zero ⟨"rel=\"last\"", 5⟩ (by decide) (by decide)

/-- Claim C8: commit lookups are attempted for exactly the first
`MAX_REPOS_FOR_COMMITS = 10` repositories in listing order: with a
10-element prefix `l₁`, any further repositories `l₂` (whatever their
star counts) contribute nothing, and the total is the ordered sum over
`l₁` alone. -/
theorem sampling_cap_first_ten (l₁ l₂ : List Repo)
    (lk : String → Except String CommitResp)
    (h : l₁.length = MAX_REPOS_FOR_COMMITS) :
    totalCommitsOf (l₁ ++ l₂) lk = totalCommitsOf l₁ lk
  ∧ totalCommitsOf l₁ lk
      = (l₁.map (fun r => commitContribution (lk r.name))).sum := by
  unfold totalCommitsOf
  rw [← h, List.take_left, List.take_length]
  exact ⟨rfl, rfl⟩

/-- Ten repositories with zero stars. -/
def reposFirstTen : List Repo := (List.range 10).map (fun i => ⟨"r", i⟩)

/-- Fifteen further repositories with large star counts. -/
def reposBeyondCap : List Repo := (List.range 15).map (fun _ => ⟨"x", 1000⟩)

/-- A lookup giving every repository one commit. -/
def lkOne : String → Except String CommitResp := fun _ => .ok ⟨"", 1⟩

/-- Witness for C8: 25 repositories, the 15 beyond the cap change
nothing. -/
theorem sampling_cap_first_ten_witness :
    totalCommitsOf (reposFirstTen ++ reposBeyondCap) lkOne
      = totalCommitsOf reposFirstTen lkOne :=
  (sampling_cap_first_ten reposFirstTen reposBeyondCap lkOne (by decide)).1

/-- Claim C5: in `get_user_stats`, a failing avatar fetch or a failing
per-repository commit lookup is swallowed where it happens (empty
avatar string, zero commits for that repository) and the aggregation
still succeeds, while a failure of the profile lookup, the repository
listing, the PR search or the issue search propagates and aborts the
aggregation with that error. -/
theorem failure_policy (u : String) (env : Env) :
    (∀ e, env.userResp = .error e → get_user_stats u env = .error e)
  ∧ (∀ ud e, env.userResp = .ok ud → env.reposResp = .error e →
      get_user_stats u env = .error e)
  ∧ (∀ ud rs e, env.userResp = .ok ud → env.reposResp = .ok rs →
      env.prsResp = .error e → get_user_stats u env = .error e)
  ∧ (∀ ud rs ps e, env.userResp = .ok ud → env.reposResp = .ok rs →
      env.prsResp = .ok ps → env.issuesResp = .error e →
      get_user_stats u env = .error e)
  ∧ (∀ ud rs ps qs, env.userResp = .ok ud → env.reposResp = .ok rs →
      env.prsResp = .ok ps → env.issuesResp = .ok qs →
      (get_user_stats u env).isOk = true)
  ∧ (∀ ud rs ps qs url e, env.userResp = .ok ud → env.reposResp = .ok rs →
      env.prsResp = .ok ps → env.issuesResp = .ok qs →
      ud.avatar_url = some url → url ≠ "" → env.avatarResp url = .error e →
      (get_user_stats u env).toOption.map Stats.avatar_base64 = some "")
  ∧ (∀ e, commitContribution (.error e) = 0) := by
  refine ⟨?_, ?_, ?_, ?_, ?_, ?_, fun _ => rfl⟩
  · intro e h
    simp [get_user_stats, h, Bind.bind, Except.bind]
  · intro ud e hu h
    simp [get_user_stats, hu, h, Bind.bind, Except.bind]
  · intro ud rs e hu hr h
    simp [get_user_stats, hu, hr, h, Bind.bind, Except.bind]
  · intro ud rs ps e hu hr hp h
    simp [get_user_stats, hu, hr, hp, h, Bind.bind, Except.bind]
  · intro ud rs ps qs hu hr hp hq
    simp [get_user_stats, hu, hr, hp, hq, Bind.bind, Except.bind, Except.isOk,
      Except.toBool]
  · intro ud rs ps qs url e hu hr hp hq hurl hne hav
    simp [get_user_stats, hu, hr, hp, hq, hurl, hne, hav, Bind.bind,
      Except.bind, Except.toOption, fetch_avatar_base64]

/-- A successful environment: every call answers, except the avatar
fetch and the commit lookups, which fail and are swallowed. -/
def envBestEffort : Env :=
  { userResp := .ok ⟨some "Alice", some "http://avatar", 3, 4, 5⟩
    reposResp := .ok [⟨"r", 2⟩]
    prsResp := .ok ⟨1⟩
    issuesResp := .ok ⟨2⟩
    avatarResp := fun _ => .error "network down"
    commitResp := fun _ => .error "network down" }

/-- The same environment with a failing repository listing. -/
def envRepoFail : Env :=
  { envBestEffort with reposResp := .error "repo listing failed" }

/-- Witness for C5: the repository-listing failure aborts the
aggregation; with the avatar fetch and commit lookups failing instead,
the aggregation succeeds with an empty avatar and zero commits. -/
theorem failure_policy_witness :
    get_user_stats "alice" envRepoFail = .error "repo listing failed"
  ∧ (get_user_stats "alice" envBestEffort).isOk = true
  ∧ (get_user_stats "alice" envBestEffort).toOption.map Stats.avatar_base64
      = some ""
  ∧ commitContribution (.error "network down") = 0 :=
  ⟨(failure_policy "alice" envRepoFail).2.1 ⟨some "Alice", some "http://avatar", 3, 4, 5⟩
      "repo listing failed" rfl rfl,
   (failure_policy "alice" envBestEffort).2.2.2.2.1
      ⟨some "Alice", some "http://avatar", 3, 4, 5⟩ [⟨"r", 2⟩] ⟨1⟩ ⟨2⟩
      rfl rfl rfl rfl,
   (failure_policy "alice" envBestEffort).2.2.2.2.2.1
      ⟨some "Alice", some "http://avatar", 3, 4, 5⟩ [⟨"r", 2⟩] ⟨1⟩ ⟨2⟩
      "http://avatar" "network down" rfl rfl rfl rfl rfl (by decide) rfl,
   (failure_policy "alice" envBestEffort).2.2.2.2.2.2 "network down"⟩

/-- Claim C6: a fatal aggregation error leaves no output file and exits
with status 1; the output document is written only when a complete
statistics record was assembled, and then it is the rendering of that
record at the resolved output path, with exit status 0. -/
theorem fatal_error_means_no_output (envUser envOwner : Option String)
    (argv : List String) (envOutput : Option String) (env : Env) :
    (∀ u e, resolve_username envUser envOwner argv = some u →
        get_user_stats u env = .error e →
        mainRun envUser envOwner argv envOutput env = (1, none))
  ∧ (∀ p c, (mainRun envUser envOwner argv envOutput env).2 = some (p, c) →
      (mainRun envUser envOwner argv envOutput env).1 = 0
        ∧ ∃ u st, resolve_username envUser envOwner argv = some u
            ∧ get_user_stats u env = .ok st
            ∧ p = envOutput.getD "docs/stats.svg" ∧ c = generate_svg st) := by
  constructor
  · intro u e hres hgus
    unfold mainRun
    rw [hres]
    by_cases hu : u = ""
    · simp [hu]
    · simp [hu, hgus]
  · intro p c h2
    cases hres : resolve_username envUser envOwner argv with
    | none =>
      rw [show mainRun envUser envOwner argv envOutput env = (1, none) by
        unfold mainRun; rw [hres]] at h2
      simp at h2
    | some u =>
      by_cases hu : u = ""
      · rw [show mainRun envUser envOwner argv envOutput env = (1, none) by
          unfold mainRun; rw [hres]; simp [hu]] at h2
        simp at h2
      · cases hgus : get_user_stats u env with
        | error e =>
          rw [show mainRun envUser envOwner argv envOutput env = (1, none) by
            unfold mainRun; rw [hres]; simp [hu, hgus]] at h2
          simp at h2
        | ok st =>
          have hm : mainRun envUser envOwner argv envOutput env
              = (0, some (envOutput.getD "docs/stats.svg", generate_svg st)) := by
            unfold mainRun; rw [hres]; simp [hu, hgus]
          rw [hm] at h2
          simp only [Option.some.injEq, Prod.mk.injEq] at h2
          rw [hm]
          exact ⟨rfl, u, st, rfl, hgus, h2.1.symm, h2.2.symm⟩

/-- Witness for C6: with the repository listing failing, `main` exits 1
and writes nothing. -/
theorem fatal_error_means_no_output_witness :
    mainRun (some "alice") none [] none envRepoFail = (1, none) :=
  (fatal_error_means_no_output (some "alice") none [] none envRepoFail).1
    "alice" "repo listing failed" rfl rfl
